import Mathlib

/-
Verification of `sbi/utils/user_input_checks.py` (jroulet/sbi).

The module is validation and normalization glue around torch tensors and
distributions.  We embed the shape / dtype / device level behaviour of its
functions: tensors are modelled as a shape (list of dimension sizes) together
with a dtype, a device string and flattened rational data; Python exceptions
are modelled with `Except` and dedicated error types whose constructors stand
for the distinct exception classes / messages raised by the source.
-/

namespace SbiChecks

/-- Torch dtypes, as far as the module distinguishes them: the code only ever
tests for equality with `torch.float32`. -/
inductive DType where
  | float32
  | float64
  | otherDType
  deriving DecidableEq, Repr

/-- Model of a torch tensor: its shape, dtype, device (the code only compares
`str(device)`, so a string) and flattened data, row-major. -/
structure Tensor where
  shape : List Nat
  dtype : DType
  device : String
  data : List Rat
  deriving DecidableEq, Repr

instance : Inhabited Tensor := ⟨⟨[], .float32, "cpu", []⟩⟩

/-- Decidable equality on `Except`, so that concrete runs of the embedded
functions can be settled by `decide`. -/
instance instDecidableEqExcept {ε α : Type} [DecidableEq ε] [DecidableEq α] :
    DecidableEq (Except ε α)
  | .error a, .error b =>
    if h : a = b then .isTrue (by rw [h]) else
      .isFalse (fun hh => h (Except.error.inj hh))
  | .error _, .ok _ => .isFalse (fun hh => Except.noConfusion hh)
  | .ok _, .error _ => .isFalse (fun hh => Except.noConfusion hh)
  | .ok a, .ok b =>
    if h : a = b then .isTrue (by rw [h]) else
      .isFalse (fun hh => h (Except.ok.inj hh))

/-- `torch.Size.numel`: product of the dimension sizes. -/
def numel (shape : List Nat) : Nat := shape.prod

/-- Errors of `check_for_possibly_batched_x_shape`.  `unpackError` is the
`ValueError` Python raises for `batch, *rest = x_shape` when `x_shape` is the
empty tuple; `batchedXGuidance` is the documented `ValueError` with the long
guidance message about batched observations. -/
inductive XShapeError where
  | unpackError
  | batchedXGuidance
  deriving DecidableEq, Repr

/-- `check_for_possibly_batched_x_shape(x_shape)` (lines 285-356): unpack the
leading dimension, then raise the guidance `ValueError` when the rank is
larger than 1 and the leading dimension is larger than 1. -/
def check_for_possibly_batched_x_shape (x_shape : List Nat) :
    Except XShapeError Unit :=
  match x_shape with
  | [] => .error .unpackError
  | inferred_batch_shape :: _ =>
    if x_shape.length > 1 ∧ inferred_batch_shape > 1 then
      .error .batchedXGuidance
    else
      .ok ()

/-- Modelled from the spec: `atleast_2d` from `sbi.utils.torchutils` (imported by
the module but not under src/), specified as guaranteeing at least 2 dimensions
by promoting a missing batch dimension: a tensor of rank at least 2 is returned
unchanged, a rank-1 tensor of shape `(n,)` becomes `(1, n)`, a rank-0 tensor
becomes `(1, 1)`.  The data is untouched. -/
def atleast_2d (t : Tensor) : Tensor :=
  match t.shape with
  | [] => { t with shape := [1, 1] }
  | [n] => { t with shape := [1, n] }
  | _ => t

/-- `torch.as_tensor(x, dtype=float32)` on a tensor input: the identity on a
float32 tensor, otherwise the tensor with its values converted to float32.
The numeric conversion is abstracted as the parameter `cast` (applied
elementwise); shape and device are preserved. -/
def as_tensor_f32 (cast : Rat → Rat) (t : Tensor) : Tensor :=
  if t.dtype = .float32 then t
  else { t with dtype := .float32, data := t.data.map cast }

/-- `x.unsqueeze(0)`: prepend a batch dimension of size 1. -/
def unsqueeze0 (t : Tensor) : Tensor := { t with shape := 1 :: t.shape }

/-- Errors of `process_x`: the explicit `ValueError` for an event shape of
higher rank than `x`, and the trailing-shape `AssertionError`. -/
inductive XError where
  | eventShapeRankError
  | eventShapeMismatch
  deriving DecidableEq, Repr

/-- `process_x(x, x_event_shape)` (lines 596-635): cast to a float32 tensor and
promote to at least 2 dimensions; with a known event shape, raise `ValueError`
when the event shape has more dimensions than `x`, add a leading batch
dimension when the ranks are equal, and finally assert that the trailing
dimensions of `x` equal the event shape. -/
def process_x (cast : Rat → Rat) (x : Tensor) (x_event_shape : Option (List Nat)) :
    Except XError Tensor :=
  let x := atleast_2d (as_tensor_f32 cast x)
  match x_event_shape with
  | none => .ok x
  | some es =>
    if es.length > x.shape.length then .error .eventShapeRankError
    else
      let x := if es.length = x.shape.length then unsqueeze0 x else x
      if x.shape.drop 1 = es then .ok x else .error .eventShapeMismatch

/-- Model of the PyTorch distributions `process_pytorch_prior` manipulates.
`uniform low high` is `torch.distributions.Uniform(low, high)` with
equal-shaped bound tensors (the shape broadcast of the torch bounds);
`boxUniform low high` is sbi's `BoxUniform(low, high)`, i.e.
`Independent(Uniform(low, high), 1)`; `returnTypeWrapper` is
`PytorchReturnTypeWrapper(prior, return_type=float32)`; `oneDimWrapper` is
`OneDimPriorWrapper`; `generic batch event dtype` stands for any other torch
distribution with the given batch shape, event shape and sample dtype. -/
inductive Dist where
  | uniform (low high : Tensor)
  | boxUniform (low high : Tensor)
  | returnTypeWrapper (inner : Dist)
  | oneDimWrapper (inner : Dist)
  | generic (batch event : List Nat) (dtype : DType)
  deriving DecidableEq, Repr

/-- `prior.batch_shape`.  `Uniform(low, high)` has the bounds' shape as batch
shape and an empty event shape; `BoxUniform` reinterprets the last batch
dimension as the event dimension; the wrappers keep the inner shapes.
(`BoxUniform` with rank-0 bounds is not constructible in torch; the model
makes that arm total with `getLastD`.) -/
def Dist.batch_shape : Dist → List Nat
  | .uniform low _ => low.shape
  | .boxUniform low _ => low.shape.dropLast
  | .returnTypeWrapper d => d.batch_shape
  | .oneDimWrapper d => d.batch_shape
  | .generic b _ _ => b

/-- `prior.event_shape`. -/
def Dist.event_shape : Dist → List Nat
  | .uniform _ _ => []
  | .boxUniform low _ => [low.shape.getLastD 1]
  | .returnTypeWrapper d => d.event_shape
  | .oneDimWrapper d => d.event_shape
  | .generic _ e _ => e

/-- dtype of `prior.sample()`: the bounds' dtype for the uniform forms, always
float32 for `PytorchReturnTypeWrapper`, the inner dtype otherwise. -/
def Dist.sample_dtype : Dist → DType
  | .uniform low _ => low.dtype
  | .boxUniform low _ => low.dtype
  | .returnTypeWrapper _ => .float32
  | .oneDimWrapper d => d.sample_dtype
  | .generic _ _ dt => dt

/-- shape of `prior.sample()` (empty sample shape): batch shape followed by
event shape. -/
def Dist.sample_shape (d : Dist) : List Nat := d.batch_shape ++ d.event_shape

/-- shape of `prior.log_prob(prior.sample((n,)))`: torch returns
`(n, *batch_shape)`; `OneDimPriorWrapper` squeezes the trailing singleton,
returning `(n,)`. -/
def Dist.log_prob_shape (d : Dist) (n : Nat) : List Nat :=
  match d with
  | .oneDimWrapper _ => [n]
  | _ => n :: d.batch_shape

/-- Errors raised while processing a PyTorch prior: the scalar-prior
`ValueError`, the batch-dims `ValueError` of `check_prior_batch_dims`, and the
assertions of `check_prior_batch_behavior` / `check_prior_return_type`. -/
inductive PriorError where
  | scalarPrior
  | batchDimsTooLarge
  | batchBehaviorAssert
  | returnTypeAssert
  deriving DecidableEq, Repr

/-- `check_prior_batch_behavior(prior)` (lines 411-434): sample a batch of one
parameter set, assert that it is at least 2-dimensional and that sample and
log-prob batch sizes both equal 1. -/
def check_prior_batch_behavior (d : Dist) : Except PriorError Unit :=
  let theta_shape := 1 :: d.sample_shape
  if theta_shape.length < 2 then .error .batchBehaviorAssert
  else if theta_shape.headD 0 ≠ 1 then .error .batchBehaviorAssert
  else if (d.log_prob_shape 1).headD 0 ≠ 1 then .error .batchBehaviorAssert
  else .ok ()

/-- `check_prior_batch_dims(prior)` (lines 251-282): `ValueError` when
`batch_shape.numel() > 1`. -/
def check_prior_batch_dims (d : Dist) : Except PriorError Unit :=
  if numel d.batch_shape > 1 then .error .batchDimsTooLarge else .ok ()

/-- `check_prior_return_type(prior)` (lines 400-408) with the default
`return_type=float32`: assert `prior.sample().dtype == float32`. -/
def check_prior_return_type (d : Dist) : Except PriorError Unit :=
  if d.sample_dtype = .float32 then .ok () else .error .returnTypeAssert

/-- Outcome of `process_pytorch_prior`: whether
`set_default_validate_args(False)` has run, the returned
`(prior, theta_numel, prior_returns_numpy)` triple or the raised error, and
the number of warnings emitted during the call. -/
structure PriorProcessOutcome where
  validate_args_disabled : Bool
  result : Except PriorError (Dist × Nat × Bool)
  warnings : Nat
  deriving DecidableEq, Repr

/-- `process_pytorch_prior(prior)` (lines 196-248): disable argument
validation; raise the scalar-prior `ValueError` when `sample()` has rank 0;
else recast a `Uniform` with `batch_shape.numel() == 1` to `BoxUniform` with a
warning; run the batch-behavior and batch-dims checks; wrap in
`PytorchReturnTypeWrapper` when the dtype is not float32 and re-check the
return type; wrap in `OneDimPriorWrapper` when `log_prob` over a batch of 10
samples has shape `[10, 1]`; return the prior with `theta_numel` and
`prior_returns_numpy = False`. -/
def process_pytorch_prior (prior : Dist) : PriorProcessOutcome :=
  if (Dist.sample_shape prior).length = 0 then
    ⟨true, .error .scalarPrior, 0⟩
  else
    let recast : Dist × Nat :=
      match prior with
      | .uniform low high =>
        if numel (Dist.uniform low high).batch_shape = 1 then
          (.boxUniform low high, 1)
        else (.uniform low high, 0)
      | p => (p, 0)
    let prior := recast.1
    let warnings := recast.2
    match check_prior_batch_behavior prior with
    | .error e => ⟨true, .error e, warnings⟩
    | .ok () =>
      match check_prior_batch_dims prior with
      | .error e => ⟨true, .error e, warnings⟩
      | .ok () =>
        let prior :=
          if Dist.sample_dtype prior ≠ .float32 then .returnTypeWrapper prior
          else prior
        match check_prior_return_type prior with
        | .error e => ⟨true, .error e, warnings⟩
        | .ok () =>
          let prior :=
            if Dist.log_prob_shape prior 10 = [10, 1] then .oneDimWrapper prior
            else prior
          ⟨true, .ok (prior, numel (Dist.sample_shape prior), false), warnings⟩

/-- `process_prior(prior)` (lines 38-113) on a PyTorch `Distribution` input:
the `isinstance(prior, Distribution)` branch calls `process_pytorch_prior`
directly.  The sequence, scipy and custom-object branches take inputs outside
this model's `Dist` domain. -/
def process_prior (prior : Dist) : PriorProcessOutcome :=
  process_pytorch_prior prior

/-- An argument of `validate_theta_and_x`, typed `Any` in the source: either a
torch tensor or some other Python value (the code only tests
`isinstance(_, Tensor)`). -/
inductive Datum where
  | tensor (t : Tensor)
  | notTensor
  deriving DecidableEq, Repr

/-- The distinct assertion messages of `validate_theta_and_x`, one constructor
per message, plus the `IndexError` Python raises for `shape[0]` on a rank-0
tensor. -/
inductive ValidateError where
  | thetaNotTensor
  | xNotTensor
  | batchMismatch
  | thetaDtype
  | xDtype
  | indexError
  deriving DecidableEq, Repr

/-- `x.to(device)`: relocate a tensor. -/
def to_device (t : Tensor) (d : String) : Tensor := { t with device := d }

/-- `validate_theta_and_x(theta, x, data_device, training_device)`
(lines 721-777): assert both arguments are tensors, assert equal leading batch
dimensions, assert both dtypes are float32 (each assertion with its own
message), then move `x` and afterwards `theta` to `data_device` when needed,
emitting one warning per move (the warning text names `training_device`, which
the outcome does not otherwise depend on); return the possibly relocated pair
together with the number of warnings emitted. -/
def validate_theta_and_x (theta x : Datum) (data_device : String)
    (training_device : String) : Except ValidateError (Tensor × Tensor × Nat) :=
  match theta with
  | .notTensor => .error .thetaNotTensor
  | .tensor theta =>
    match x with
    | .notTensor => .error .xNotTensor
    | .tensor x =>
      match theta.shape, x.shape with
      | [], _ => .error .indexError
      | _ :: _, [] => .error .indexError
      | tb :: _, xb :: _ =>
        if tb ≠ xb then .error .batchMismatch
        else if theta.dtype ≠ .float32 then .error .thetaDtype
        else if x.dtype ≠ .float32 then .error .xDtype
        else
          let xMove : Tensor × Nat :=
            if x.device ≠ data_device then (to_device x data_device, 1)
            else (x, 0)
          let thetaMove : Tensor × Nat :=
            if theta.device ≠ data_device then (to_device theta data_device, 1)
            else (theta, 0)
          .ok (thetaMove.1, xMove.1, xMove.2 + thetaMove.2)

/-- Python exception classes distinguished by the `except` clauses of
`check_prior_attributes`: `AttributeError`, `TypeError`, `ValueError`, and any
other `Exception` subclass. -/
inductive PyExcKind where
  | attributeError
  | typeError
  | valueError
  | otherError
  deriving DecidableEq, Repr

/-- A Python exception: its class and message. -/
structure PyExc where
  kind : PyExcKind
  message : String
  deriving DecidableEq, Repr

/-- An exception raised with `raise ... from err`: class, remediation message,
and the chained original exception. -/
structure ChainedExc where
  kind : PyExcKind
  message : String
  cause : PyExc
  deriving DecidableEq, Repr

def sample_attr_msg : String :=
  "Prior needs method `.sample()`. Consider using a PyTorch distribution."

def sample_type_msg : String :=
  "The `prior.sample()` method must accept Tuple arguments, e.g., "
    ++ "prior.sample((2, )) to sample a batch of 2 parameters. Consider "
    ++ "using a PyTorch distribution."

def sample_value_msg : String :=
  "Something went wrong when sampling a batch of parameters from the prior "
    ++ "as `prior.sample((2, ))`. Consider using a PyTorch distribution."

def log_prob_attr_msg : String :=
  "Prior needs method `.log_prob()`. Consider using a PyTorch distribution."

def log_prob_value_msg : String :=
  "Something went wrong when evaluating a batch of parameters theta with "
    ++ "`prior.log_prob(theta)`. Consider using a PyTorch distribution."

/-- `check_prior_attributes(prior)` (lines 359-397), over the outcomes of the
two probe calls: `sample_result` is the outcome of `prior.sample((2,))` and
`log_prob_result` the outcome of `prior.log_prob(theta)` on the drawn batch
(only reached when sampling succeeded).  A raised `AttributeError` is
re-raised as `AttributeError`, a `TypeError` from the sample call as
`TypeError`, and anything else as `ValueError`; every re-raise chains the
original exception and carries its remediation message. -/
def check_prior_attributes (sample_result : Except PyExc Unit)
    (log_prob_result : Except PyExc Unit) : Except ChainedExc Unit :=
  match sample_result with
  | .error err =>
    match err.kind with
    | .attributeError => .error ⟨.attributeError, sample_attr_msg, err⟩
    | .typeError => .error ⟨.typeError, sample_type_msg, err⟩
    | _ => .error ⟨.valueError, sample_value_msg, err⟩
  | .ok () =>
    match log_prob_result with
    | .error err =>
      match err.kind with
      | .attributeError => .error ⟨.attributeError, log_prob_attr_msg, err⟩
      | _ => .error ⟨.valueError, log_prob_value_msg, err⟩
    | .ok () => .ok ()

/-- A Python `RuntimeError` as surfaced to the caller: its message and, when
raised with `raise ... from rte`, the message of the chained original error. -/
structure PyRuntimeError where
  message : String
  cause : Option String
  deriving DecidableEq, Repr

/-- The debug hint built by `test_posterior_net_for_multi_d_x` for `x.ndim ==
ndims`: it names `ndims - 1` as the dimensionality of the simulated data. -/
def multi_d_debug_hint (ndims : Nat) : String :=
  "Debug hint: The simulated data x has " ++ toString (ndims - 1)
    ++ " dimensions. With default settings, sbi cannot deal with "
    ++ "multidimensional simulations. Make sure to use an embedding net that "
    ++ "reduces the dimensionality, e.g., a CNN in case of images, or change "
    ++ "the simulator to return one-dimensional x."

/-- `test_posterior_net_for_multi_d_x(net, theta, x)` (lines 780-808), over
the outcome of the probe `net.log_prob(theta[:, :2], condition=x[:2])`:
`probe = none` when the probe succeeds or the net has no `log_prob` attribute,
`probe = some m` when it raises a `RuntimeError` with message `m`.  On a
`RuntimeError`, a new `RuntimeError` is raised with `from rte`: its message is
the debug hint when `x.ndim > 2` and the empty string otherwise. -/
def test_posterior_net_for_multi_d_x (probe : Option String) (x_ndim : Nat) :
    Except PyRuntimeError Unit :=
  match probe with
  | none => .ok ()
  | some rte_message =>
    let message := if x_ndim > 2 then multi_d_debug_hint x_ndim else ""
    .error ⟨message, some rte_message⟩

/-- Errors a (wrapped) simulator call can surface: the batch-dimension
assertion of `batch_loop_simulator`, a `RuntimeError` from `torch.stack` on an
empty list or mismatched shapes, and any exception raised by the user
simulator itself. -/
inductive SimError where
  | assertBatchDim
  | stackError
  | userError (message : String)
  deriving DecidableEq, Repr

/-- Iterating over a tensor (as `map(simulator, theta)` does) yields its
slices along dimension 0: for shape `n :: rest`, the `n` tensors of shape
`rest` holding consecutive runs of the row-major data. -/
def Tensor.rows (t : Tensor) : List Tensor :=
  match t.shape with
  | [] => []
  | n :: rest =>
    (List.range n).map fun i =>
      ⟨rest, t.dtype, t.device, (t.data.drop (i * numel rest)).take (numel rest)⟩

/-- `torch.stack(xs)`: a `RuntimeError` on an empty list or when the tensors
do not all share shape, dtype and device; otherwise the tensor with a new
leading dimension of size `len(xs)` and the concatenated data. -/
def stackT (xs : List Tensor) : Except SimError Tensor :=
  match xs with
  | [] => .error .stackError
  | x :: rest =>
    if rest.all fun y =>
        y.shape == x.shape && y.dtype == x.dtype && y.device == x.device then
      .ok ⟨(x :: rest).length :: x.shape, x.dtype, x.device,
        ((x :: rest).map Tensor.data).flatten⟩
    else .error .stackError

/-- `list(map(simulator, theta))`: apply the simulator to each row in order,
propagating the first raised exception. -/
def map_simulate (simulator : Tensor → Except SimError Tensor) :
    List Tensor → Except SimError (List Tensor)
  | [] => .ok []
  | t :: ts =>
    match simulator t with
    | .error e => .error e
    | .ok x =>
      match map_simulate simulator ts with
      | .error e => .error e
      | .ok xs => .ok (x :: xs)

/-- `get_batch_loop_simulator(simulator)` (lines 579-593): the returned
`batch_loop_simulator` asserts its input has a batch dimension (rank > 1),
simulates each row in a loop and stacks the results. -/
def get_batch_loop_simulator (simulator : Tensor → Except SimError Tensor) :
    Tensor → Except SimError Tensor :=
  fun theta =>
    if theta.shape.length > 1 then
      match map_simulate simulator theta.rows with
      | .error e => .error e
      | .ok xs => stackT xs
    else .error .assertBatchDim

/-- `ensure_batched_simulator(simulator, prior)` (lines 558-576).  The probe
feeds `prior.sample((2,))` to the simulator; sampling is random, so the drawn
probe batch is the parameter `probe_theta`.  The simulator is returned
unchanged when the probe call succeeds with output of rank > 1 and leading
dimension equal to the batch size 2; if the probe raises any exception or a
shape assert fails, the batch-loop wrapper is returned instead. -/
def ensure_batched_simulator (simulator : Tensor → Except SimError Tensor)
    (probe_theta : Tensor) : Tensor → Except SimError Tensor :=
  let is_batched_simulator :=
    match simulator probe_theta with
    | .ok out => decide (out.shape.length > 1 ∧ out.shape.headD 0 = 2)
    | .error _ => false
  if is_batched_simulator then simulator
  else get_batch_loop_simulator simulator

/-- `torch.as_tensor(theta)` without a dtype argument on a tensor input: the
identity. -/
def as_tensor (t : Tensor) : Tensor := t

/-- `wrap_as_joblib_efficient_simulator(simulator, prior, is_numpy_simulator)`
(lines 521-529): the returned `joblib_simulator` converts its input with
`torch.as_tensor` and casts the output to a float32 tensor.  `prior` and
`is_numpy_simulator` are received but never used; `prior n` models the draw
of `prior.sample((n,))`. -/
def wrap_as_joblib_efficient_simulator (cast : Rat → Rat)
    (simulator : Tensor → Except SimError Tensor)
    (prior : Nat → Tensor) (is_numpy_simulator : Bool) :
    Tensor → Except SimError Tensor :=
  fun theta => (simulator (as_tensor theta)).map (as_tensor_f32 cast)

/-- `process_simulator(user_simulator, prior, is_numpy_simulator)` (lines
468-513): assert the simulator is callable (always true of a Lean function),
wrap it as a joblib-efficient simulator, then ensure batched simulation with
the probe batch `prior.sample((2,))`. -/
def process_simulator (cast : Rat → Rat)
    (user_simulator : Tensor → Except SimError Tensor)
    (prior : Nat → Tensor) (is_numpy_simulator : Bool) :
    Tensor → Except SimError Tensor :=
  let joblib_simulator :=
    wrap_as_joblib_efficient_simulator cast user_simulator prior
      is_numpy_simulator
  ensure_batched_simulator joblib_simulator (prior 2)

/-- The spec example of a simulator accepting only a single parameter vector:
`lambda theta: theta.sum()` (torch `.sum()` returns a rank-0 tensor). -/
def per_row_sum_simulator : Tensor → Except SimError Tensor :=
  fun theta => .ok ⟨[], theta.dtype, theta.device, [theta.data.sum]⟩

/-- C1, as stated, is false on the empty shape: `check_for_possibly_batched_x_shape`
does not return normally on `()` even though `()` is not of rank > 1 with leading
dimension > 1 (the unpacking itself raises a `ValueError`). -/
theorem c1_counterexample :
    ¬ ((check_for_possibly_batched_x_shape [] = .ok ()) ↔
        ¬ (List.length ([] : List Nat) > 1 ∧ List.headD ([] : List Nat) 0 > 1)) := by
  decide

/-- C1 (amended to shapes of rank at least 1): for every nonempty shape,
`check_for_possibly_batched_x_shape` raises the guidance `ValueError` exactly
when the rank is larger than 1 and the leading dimension is larger than 1, and
returns normally otherwise; concretely, `(1,)`, `(3,)`, `(2,)`, `(1, 3)` and
`(1, 2, 3)` pass while `(2, 3)` and `(2, 2, 3)` raise. -/
theorem c1_batched_x_shape_rule :
    (∀ s : List Nat, s ≠ [] →
      ((check_for_possibly_batched_x_shape s = .error .batchedXGuidance ↔
          (s.length > 1 ∧ s.headD 0 > 1)) ∧
        (check_for_possibly_batched_x_shape s = .ok () ↔
          ¬ (s.length > 1 ∧ s.headD 0 > 1)))) ∧
    check_for_possibly_batched_x_shape [1] = .ok () ∧
    check_for_possibly_batched_x_shape [3] = .ok () ∧
    check_for_possibly_batched_x_shape [2] = .ok () ∧
    check_for_possibly_batched_x_shape [1, 3] = .ok () ∧
    check_for_possibly_batched_x_shape [1, 2, 3] = .ok () ∧
    check_for_possibly_batched_x_shape [2, 3] = .error .batchedXGuidance ∧
    check_for_possibly_batched_x_shape [2, 2, 3] = .error .batchedXGuidance := by
  refine ⟨?_, by decide, by decide, by decide, by decide, by decide, by decide, by decide⟩
  intro s hs
  match s, hs with
  | b :: rest, _ =>
    constructor
    · simp only [check_for_possibly_batched_x_shape, List.headD_cons]
      split
      · simp_all
      · simp_all
    · simp only [check_for_possibly_batched_x_shape, List.headD_cons]
      split
      · simp_all
      · simp_all

/-- C1 witness: the rank rule applied at the concrete shape `(2, 3)`. -/
theorem c1_batched_x_shape_rule_witness :
    check_for_possibly_batched_x_shape [2, 3] = .error .batchedXGuidance :=
  (c1_batched_x_shape_rule.1 [2, 3] (by decide)).1.mpr (by decide)

/-- C9: `check_for_possibly_batched_x_shape` is not total on rank-0 shapes: the
empty shape raises the unpacking `ValueError` (not the documented guidance
error, and it does not pass), while every shape of rank at least 1 is settled
by the documented accept/reject rule. -/
theorem c9_empty_shape_not_total :
    check_for_possibly_batched_x_shape [] = .error .unpackError ∧
    XShapeError.unpackError ≠ XShapeError.batchedXGuidance ∧
    (∀ s : List Nat, s ≠ [] →
      check_for_possibly_batched_x_shape s =
        (if s.length > 1 ∧ s.headD 0 > 1 then .error .batchedXGuidance
         else .ok ())) := by
  refine ⟨by decide, by decide, ?_⟩
  intro s hs
  match s, hs with
  | b :: rest, _ =>
    simp only [check_for_possibly_batched_x_shape, List.headD_cons]

/-- C9 witness: the accept/reject rule applied at the concrete shape `(1, 3)`. -/
theorem c9_empty_shape_not_total_witness :
    check_for_possibly_batched_x_shape [1, 3] =
      (if [1, 3].length > 1 ∧ [1, 3].headD 0 > 1 then .error .batchedXGuidance
       else .ok ()) :=
  c9_empty_shape_not_total.2.2 [1, 3] (by decide)

theorem as_tensor_f32_dtype (cast : Rat → Rat) (t : Tensor) :
    (as_tensor_f32 cast t).dtype = .float32 := by
  unfold as_tensor_f32
  split
  · assumption
  · rfl

theorem as_tensor_f32_of_float32 (cast : Rat → Rat) (t : Tensor)
    (h : t.dtype = .float32) : as_tensor_f32 cast t = t := by
  unfold as_tensor_f32
  simp [h]

theorem atleast_2d_dtype (t : Tensor) : (atleast_2d t).dtype = t.dtype := by
  unfold atleast_2d
  split <;> rfl

theorem atleast_2d_length (t : Tensor) : 2 ≤ (atleast_2d t).shape.length := by
  rcases hs : t.shape with _ | ⟨a, _ | ⟨b, l⟩⟩
  · simp [atleast_2d, hs]
  · simp [atleast_2d, hs]
  · have : atleast_2d t = t := by
      unfold atleast_2d
      rw [hs]
    rw [this, hs]
    simp

theorem atleast_2d_of_length (t : Tensor) (h : 2 ≤ t.shape.length) :
    atleast_2d t = t := by
  unfold atleast_2d
  split
  · rename_i heq
    rw [heq] at h
    simp at h
  · rename_i n heq
    rw [heq] at h
    simp at h
  · rfl

theorem unsqueeze0_dtype (t : Tensor) : (unsqueeze0 t).dtype = t.dtype := rfl

theorem unsqueeze0_length (t : Tensor) :
    (unsqueeze0 t).shape.length = t.shape.length + 1 := by
  simp [unsqueeze0]

theorem process_x_fixed_point (cast : Rat → Rat) (y : Tensor) (e : List Nat)
    (hdt : y.dtype = .float32) (hlen : 2 ≤ y.shape.length)
    (hdrop : y.shape.drop 1 = e) :
    process_x cast y (some e) = .ok y := by
  have hlen_e : y.shape.length = e.length + 1 := by
    have hc := congrArg List.length hdrop
    rw [List.length_drop] at hc
    omega
  simp only [process_x]
  rw [as_tensor_f32_of_float32 cast y hdt, atleast_2d_of_length y hlen]
  have h1 : ¬ (e.length > y.shape.length) := by omega
  have h2 : ¬ (e.length = y.shape.length) := by omega
  have hdrop2 : y.shape.tail = e := by
    rw [← List.drop_one]
    exact hdrop
  simp [h1, h2, hdrop, hdrop2]

/-- C4: `process_x` is idempotent once a batch dimension exists: whenever
`process_x x x_event_shape` succeeds with result `y`, running `process_x` again
on `y` with the same `x_event_shape` succeeds and returns `y` itself. -/
theorem c4_process_x_idempotent (cast : Rat → Rat) (x y : Tensor)
    (es : Option (List Nat)) (h : process_x cast x es = .ok y) :
    process_x cast y es = .ok y := by
  cases es with
  | none =>
    simp only [process_x] at h ⊢
    have hy : atleast_2d (as_tensor_f32 cast x) = y := Except.ok.inj h
    have hdt : y.dtype = .float32 := by
      rw [← hy, atleast_2d_dtype, as_tensor_f32_dtype]
    have hlen : 2 ≤ y.shape.length := by
      rw [← hy]
      exact atleast_2d_length _
    rw [as_tensor_f32_of_float32 cast y hdt, atleast_2d_of_length y hlen]
  | some e =>
    simp only [process_x] at h
    have hdt1 : (atleast_2d (as_tensor_f32 cast x)).dtype = .float32 := by
      rw [atleast_2d_dtype, as_tensor_f32_dtype]
    have hlen1 : 2 ≤ (atleast_2d (as_tensor_f32 cast x)).shape.length :=
      atleast_2d_length _
    split at h
    · exact absurd h (by simp)
    · rename_i hrank
      split at h
      all_goals split at h
      · rename_i heq hdrop
        have hy := Except.ok.inj h
        refine process_x_fixed_point cast y e ?_ ?_ ?_
        · rw [← hy, unsqueeze0_dtype]
          exact hdt1
        · rw [← hy, unsqueeze0_length]
          omega
        · rw [← hy]
          exact hdrop
      · exact absurd h (by simp)
      · rename_i heq hdrop
        have hy := Except.ok.inj h
        refine process_x_fixed_point cast y e ?_ ?_ ?_
        · rw [← hy]
          exact hdt1
        · rw [← hy]
          exact hlen1
        · rw [← hy]
          exact hdrop
      · exact absurd h (by simp)

/-- C4 witness: a concrete run, with `x` of shape `(3,)` and event shape `(3,)`:
one application yields the batched tensor of shape `(1, 3)`, and the theorem
re-applied to that output returns it unchanged. -/
theorem c4_process_x_idempotent_witness :
    process_x id ⟨[3], .float32, "cpu", [1, 2, 3]⟩ (some [3]) =
        .ok ⟨[1, 3], .float32, "cpu", [1, 2, 3]⟩ ∧
    process_x id ⟨[1, 3], .float32, "cpu", [1, 2, 3]⟩ (some [3]) =
        .ok ⟨[1, 3], .float32, "cpu", [1, 2, 3]⟩ := by
  refine ⟨by decide, ?_⟩
  exact c4_process_x_idempotent id ⟨[3], .float32, "cpu", [1, 2, 3]⟩
    ⟨[1, 3], .float32, "cpu", [1, 2, 3]⟩ (some [3]) (by decide)

/-- C2, as stated over every one-dimensional `Uniform` prior with
`batch_shape.numel() == 1`, is false: a float64 1-D `Uniform` is recast to
`BoxUniform`, but since its sample dtype is not float32 the returned prior is
`PytorchReturnTypeWrapper(BoxUniform(...))`, not the `BoxUniform` with
identical bounds (the single warning is still emitted). -/
theorem c2_counterexample :
    process_prior
        (.uniform ⟨[1], .float64, "cpu", [0]⟩ ⟨[1], .float64, "cpu", [1]⟩) =
      ⟨true,
        .ok (.returnTypeWrapper
            (.boxUniform ⟨[1], .float64, "cpu", [0]⟩ ⟨[1], .float64, "cpu", [1]⟩),
          1, false),
        1⟩ ∧
    (process_prior
        (.uniform ⟨[1], .float64, "cpu", [0]⟩ ⟨[1], .float64, "cpu", [1]⟩)).result ≠
      .ok (.boxUniform ⟨[1], .float64, "cpu", [0]⟩ ⟨[1], .float64, "cpu", [1]⟩,
        1, false) := by
  constructor
  · decide
  · decide

/-- C2 (amended to float32 priors): for every one-dimensional float32 `Uniform`
prior (bounds of shape `(1,)`, hence `batch_shape.numel() == 1`),
`process_prior` succeeds and returns the `BoxUniform` prior with the very same
bound tensors, `theta_numel = 1` and `prior_returns_numpy = False`, emitting
exactly one warning during the call. -/
theorem c2_uniform_to_box_uniform (low high : Tensor)
    (h1 : low.shape = [1]) (h2 : low.dtype = .float32) :
    process_prior (.uniform low high) =
      ⟨true, .ok (.boxUniform low high, 1, false), 1⟩ := by
  simp [process_prior, process_pytorch_prior, Dist.sample_shape,
    Dist.batch_shape, Dist.event_shape, Dist.sample_dtype, Dist.log_prob_shape,
    check_prior_batch_behavior, check_prior_batch_dims,
    check_prior_return_type, numel, h1, h2]

/-- C2 witness: the concrete uniform prior with bounds `[0.]` and `[1.]`. -/
theorem c2_uniform_to_box_uniform_witness :
    process_prior
        (.uniform ⟨[1], .float32, "cpu", [0]⟩ ⟨[1], .float32, "cpu", [1]⟩) =
      ⟨true,
        .ok (.boxUniform ⟨[1], .float32, "cpu", [0]⟩ ⟨[1], .float32, "cpu", [1]⟩,
          1, false),
        1⟩ :=
  c2_uniform_to_box_uniform ⟨[1], .float32, "cpu", [0]⟩
    ⟨[1], .float32, "cpu", [1]⟩ rfl rfl

/-- C3: for every prior whose raw `sample()` has rank 0, `process_prior`
raises the scalar-prior `ValueError`, with default argument validation already
disabled and no warning emitted and no other check reached. -/
theorem c3_scalar_prior_value_error (prior : Dist)
    (h : prior.sample_shape = []) :
    process_prior prior = ⟨true, .error .scalarPrior, 0⟩ := by
  simp [process_prior, process_pytorch_prior, h]

/-- C3 witness: a scalar prior (empty batch and event shape). -/
theorem c3_scalar_prior_value_error_witness :
    process_prior (.generic [] [] .float32) = ⟨true, .error .scalarPrior, 0⟩ :=
  c3_scalar_prior_value_error (.generic [] [] .float32) rfl

/-- C6: `validate_theta_and_x` returns float32 tensors with equal leading
dimension residing on the data device unchanged (zero warnings); it raises the
batch-mismatch assertion for mismatched leading dimensions, the tensor-ness
assertions for non-tensor arguments and the dtype assertions for non-float32
tensors - five assertions with pairwise distinct messages. -/
theorem c6_validate_theta_and_x (theta x : Tensor) (tb xb : Nat)
    (ts xs : List Nat) (dd td : String)
    (hts : theta.shape = tb :: ts) (hxs : x.shape = xb :: xs) :
    (tb = xb → theta.dtype = .float32 → x.dtype = .float32 →
      theta.device = dd → x.device = dd →
      validate_theta_and_x (.tensor theta) (.tensor x) dd td =
        .ok (theta, x, 0)) ∧
    (tb ≠ xb →
      validate_theta_and_x (.tensor theta) (.tensor x) dd td =
        .error .batchMismatch) ∧
    (tb = xb → theta.dtype ≠ .float32 →
      validate_theta_and_x (.tensor theta) (.tensor x) dd td =
        .error .thetaDtype) ∧
    (tb = xb → theta.dtype = .float32 → x.dtype ≠ .float32 →
      validate_theta_and_x (.tensor theta) (.tensor x) dd td =
        .error .xDtype) ∧
    (∀ d : Datum, validate_theta_and_x .notTensor d dd td =
      .error .thetaNotTensor) ∧
    (validate_theta_and_x (.tensor theta) .notTensor dd td =
      .error .xNotTensor) ∧
    [ValidateError.thetaNotTensor, ValidateError.xNotTensor,
        ValidateError.batchMismatch, ValidateError.thetaDtype,
        ValidateError.xDtype].Pairwise (fun a b => a ≠ b) := by
  refine ⟨?_, ?_, ?_, ?_, ?_, ?_, ?_⟩
  · intro hb hdt hdx hdevt hdevx
    simp [validate_theta_and_x, hts, hxs, hb, hdt, hdx, hdevt, hdevx]
  · intro hb
    simp [validate_theta_and_x, hts, hxs, hb]
  · intro hb hdt
    simp [validate_theta_and_x, hts, hxs, hb, hdt]
  · intro hb hdt hdx
    simp [validate_theta_and_x, hts, hxs, hb, hdt, hdx]
  · intro d
    simp [validate_theta_and_x]
  · simp [validate_theta_and_x]
  · decide

/-- C6 witness: `theta` of shape `(5, 2)` and `x` of shape `(5, 3)`, float32,
on the data device, are returned unchanged. -/
theorem c6_validate_theta_and_x_witness :
    validate_theta_and_x
        (.tensor ⟨[5, 2], .float32, "cpu", List.replicate 10 0⟩)
        (.tensor ⟨[5, 3], .float32, "cpu", List.replicate 15 0⟩) "cpu" "cpu" =
      .ok (⟨[5, 2], .float32, "cpu", List.replicate 10 0⟩,
        ⟨[5, 3], .float32, "cpu", List.replicate 15 0⟩, 0) :=
  (c6_validate_theta_and_x ⟨[5, 2], .float32, "cpu", List.replicate 10 0⟩
      ⟨[5, 3], .float32, "cpu", List.replicate 15 0⟩ 5 5 [2] [3] "cpu" "cpu"
      rfl rfl).1 rfl rfl rfl rfl rfl

/-- C8: `check_prior_attributes` classifies probe failures into exactly three
kinds: missing `sample`/`log_prob` re-raise as `AttributeError`, a `sample`
rejecting the batch-size tuple re-raises as `TypeError`, and any other failure
of either call re-raises as `ValueError`; each raised error chains the
original exception and carries its own remediation message. -/
theorem c8_check_prior_attributes (sr lr : Except PyExc Unit) :
    (∀ err, sr = .error err → err.kind = .attributeError →
      check_prior_attributes sr lr =
        .error ⟨.attributeError, sample_attr_msg, err⟩) ∧
    (∀ err, sr = .error err → err.kind = .typeError →
      check_prior_attributes sr lr =
        .error ⟨.typeError, sample_type_msg, err⟩) ∧
    (∀ err, sr = .error err → err.kind ≠ .attributeError →
      err.kind ≠ .typeError →
      check_prior_attributes sr lr =
        .error ⟨.valueError, sample_value_msg, err⟩) ∧
    (∀ err, sr = .ok () → lr = .error err → err.kind = .attributeError →
      check_prior_attributes sr lr =
        .error ⟨.attributeError, log_prob_attr_msg, err⟩) ∧
    (∀ err, sr = .ok () → lr = .error err → err.kind ≠ .attributeError →
      check_prior_attributes sr lr =
        .error ⟨.valueError, log_prob_value_msg, err⟩) ∧
    (sr = .ok () → lr = .ok () → check_prior_attributes sr lr = .ok ()) := by
  refine ⟨?_, ?_, ?_, ?_, ?_, ?_⟩
  · intro err hsr hk
    subst hsr
    simp [check_prior_attributes, hk]
  · intro err hsr hk
    subst hsr
    simp [check_prior_attributes, hk]
  · intro err hsr hk1 hk2
    subst hsr
    cases hk : err.kind
    · exact absurd hk hk1
    · exact absurd hk hk2
    · simp [check_prior_attributes, hk]
    · simp [check_prior_attributes, hk]
  · intro err hsr hlr hk
    subst hsr
    subst hlr
    simp [check_prior_attributes, hk]
  · intro err hsr hlr hknot
    subst hsr
    subst hlr
    cases hk : err.kind
    · exact absurd hk hknot
    · simp [check_prior_attributes, hk]
    · simp [check_prior_attributes, hk]
    · simp [check_prior_attributes, hk]
  · intro hsr hlr
    subst hsr
    subst hlr
    simp [check_prior_attributes]

/-- C8 witness: a prior whose `sample` raises `TypeError` because it rejects
the batch-size tuple is re-raised as `TypeError` chaining the original. -/
theorem c8_check_prior_attributes_witness :
    check_prior_attributes
        (.error ⟨.typeError, "sample() takes 1 positional argument but 2 were given"⟩)
        (.ok ()) =
      .error ⟨.typeError, sample_type_msg,
        ⟨.typeError, "sample() takes 1 positional argument but 2 were given"⟩⟩ :=
  (c8_check_prior_attributes
      (.error ⟨.typeError, "sample() takes 1 positional argument but 2 were given"⟩)
      (.ok ())).2.1
    ⟨.typeError, "sample() takes 1 positional argument but 2 were given"⟩ rfl rfl

/-- C7, as stated, is false: when the probe fails with a `RuntimeError` (here
with message "boom") and `x` has rank 2, the function does not re-raise that
error unchanged - it raises a new `RuntimeError` with empty message that
chains the original. -/
theorem c7_counterexample :
    test_posterior_net_for_multi_d_x (some "boom") 2 =
        (.error ⟨"", some "boom"⟩ : Except PyRuntimeError Unit) ∧
    test_posterior_net_for_multi_d_x (some "boom") 2 ≠
        (.error ⟨"boom", none⟩ : Except PyRuntimeError Unit) := by
  constructor
  · rfl
  · intro h
    simp [test_posterior_net_for_multi_d_x] at h

/-- C7 (amended): when the probe fails with a `RuntimeError` and `x` has rank
at most 2, the function raises a new `RuntimeError` with empty message
chaining the original; when `x` has rank at least 3, it raises a
`RuntimeError` whose message is the debug hint naming `x.ndim - 1` data
dimensions, again chaining the original; when the probe succeeds it returns
normally. -/
theorem c7_multi_d_x_reraise (m : String) (n : Nat) :
    (n ≤ 2 → test_posterior_net_for_multi_d_x (some m) n =
      .error ⟨"", some m⟩) ∧
    (2 < n → test_posterior_net_for_multi_d_x (some m) n =
      .error ⟨multi_d_debug_hint n, some m⟩) ∧
    test_posterior_net_for_multi_d_x none n = .ok () := by
  refine ⟨?_, ?_, rfl⟩
  · intro h
    have hn : ¬ n > 2 := by omega
    simp [test_posterior_net_for_multi_d_x, hn]
  · intro h
    simp [test_posterior_net_for_multi_d_x, h]

/-- C7 witness: a rank-3 `x` (a batch of monochromatic images) re-raises with
the hint naming its 2 data dimensions. -/
theorem c7_multi_d_x_reraise_witness :
    test_posterior_net_for_multi_d_x (some "shape mismatch") 3 =
      .error ⟨multi_d_debug_hint 3, some "shape mismatch"⟩ :=
  (c7_multi_d_x_reraise "shape mismatch" 3).2.1 (by omega)

theorem map_simulate_length (simulator : Tensor → Except SimError Tensor) :
    ∀ (ts : List Tensor) (xs : List Tensor),
      map_simulate simulator ts = .ok xs → xs.length = ts.length := by
  intro ts
  induction ts with
  | nil =>
    intro xs h
    simp [map_simulate] at h
    simp [← h]
  | cons t ts ih =>
    intro xs h
    simp only [map_simulate] at h
    cases hsim : simulator t with
    | error e => rw [hsim] at h; exact absurd h (by simp)
    | ok x =>
      rw [hsim] at h
      cases hrec : map_simulate simulator ts with
      | error e => rw [hrec] at h; exact absurd h (by simp)
      | ok ys =>
        rw [hrec] at h
        have := Except.ok.inj h
        rw [← this]
        simp [ih ys hrec]

theorem rows_length (t : Tensor) (n : Nat) (rest : List Nat)
    (h : t.shape = n :: rest) : t.rows.length = n := by
  simp [Tensor.rows, h]

/-- C5: when the batch probe fails (the probe call raised, or its output has
rank at most 1 or leading dimension different from 2), `ensure_batched_simulator`
returns the batch-loop wrapper: on inputs without a batch dimension (rank at
most 1) it raises the batch-dimension assertion, and on a batch of rank > 1 it
applies the simulator independently to each row and stacks the results along a
new leading batch dimension whose size is the number of rows. -/
theorem c5_batch_loop_fallback (simulator : Tensor → Except SimError Tensor)
    (probe_theta : Tensor)
    (h : ∀ out, simulator probe_theta = .ok out →
      out.shape.length ≤ 1 ∨ out.shape.headD 0 ≠ 2) :
    (∀ theta, ensure_batched_simulator simulator probe_theta theta =
      get_batch_loop_simulator simulator theta) ∧
    (∀ theta, theta.shape.length ≤ 1 →
      ensure_batched_simulator simulator probe_theta theta =
        .error .assertBatchDim) ∧
    (∀ theta x0 rest, theta.shape.length > 1 →
      map_simulate simulator theta.rows = .ok (x0 :: rest) →
      (∀ y ∈ x0 :: rest,
        y.shape = x0.shape ∧ y.dtype = x0.dtype ∧ y.device = x0.device) →
      ensure_batched_simulator simulator probe_theta theta =
        .ok ⟨(x0 :: rest).length :: x0.shape, x0.dtype, x0.device,
          ((x0 :: rest).map Tensor.data).flatten⟩ ∧
      (x0 :: rest).length = theta.shape.headD 0) := by
  have hfalse : (match simulator probe_theta with
      | .ok out => decide (out.shape.length > 1 ∧ out.shape.headD 0 = 2)
      | .error _ => false) = false := by
    cases hs : simulator probe_theta with
    | ok out =>
      rcases h out hs with hle | hne
      · simp
        omega
      · simp
        intro hgt
        simpa using hne
    | error e => rfl
  have hwrap : ∀ theta, ensure_batched_simulator simulator probe_theta theta =
      get_batch_loop_simulator simulator theta := by
    intro theta
    simp only [ensure_batched_simulator, hfalse]
    simp
  refine ⟨hwrap, ?_, ?_⟩
  · intro theta hlen
    rw [hwrap theta]
    have : ¬ theta.shape.length > 1 := by omega
    simp [get_batch_loop_simulator, this]
  · intro theta x0 rest hlen hmap hsame
    have hstack : stackT (x0 :: rest) =
        .ok ⟨(x0 :: rest).length :: x0.shape, x0.dtype, x0.device,
          ((x0 :: rest).map Tensor.data).flatten⟩ := by
      have hall : rest.all (fun y =>
          y.shape == x0.shape && y.dtype == x0.dtype &&
            y.device == x0.device) = true := by
        rw [List.all_eq_true]
        intro y hy
        rcases hsame y (List.mem_cons_of_mem x0 hy) with ⟨h1, h2, h3⟩
        simp [h1, h2, h3]
      simp [stackT, hall]
    constructor
    · rw [hwrap theta]
      simp [get_batch_loop_simulator, hlen, hmap, hstack]
    · have hlen2 := map_simulate_length simulator theta.rows (x0 :: rest) hmap
      rcases hshape : theta.shape with _ | ⟨n, srest⟩
      · rw [hshape] at hlen
        simp at hlen
      · rw [rows_length theta n srest hshape] at hlen2
        simp [hlen2, List.headD_cons]

/-- C5 witness: the per-row sum simulator fails the probe (its probe output
has rank 0), and the wrapper applied to a batch of 4 parameter vectors of
length 2 returns the stacked batch of the 4 row sums; a rank-1 input fails
the batch-dimension assertion. -/
theorem c5_batch_loop_fallback_witness :
    ensure_batched_simulator per_row_sum_simulator
        ⟨[2, 2], .float32, "cpu", [0, 0, 0, 0]⟩
        ⟨[4, 2], .float32, "cpu", [1, 2, 3, 4, 5, 6, 7, 8]⟩ =
      .ok ⟨[4], .float32, "cpu", [3, 7, 11, 15]⟩ ∧
    ensure_batched_simulator per_row_sum_simulator
        ⟨[2, 2], .float32, "cpu", [0, 0, 0, 0]⟩
        ⟨[2], .float32, "cpu", [1, 2]⟩ =
      .error .assertBatchDim := by
  have h := c5_batch_loop_fallback per_row_sum_simulator
    ⟨[2, 2], .float32, "cpu", [0, 0, 0, 0]⟩
    (by
      intro out hout
      left
      rw [← Except.ok.inj hout]
      decide)
  constructor
  · have hmap : map_simulate per_row_sum_simulator
        (Tensor.rows ⟨[4, 2], .float32, "cpu", [1, 2, 3, 4, 5, 6, 7, 8]⟩) =
        .ok [⟨[], .float32, "cpu", [3]⟩, ⟨[], .float32, "cpu", [7]⟩,
          ⟨[], .float32, "cpu", [11]⟩, ⟨[], .float32, "cpu", [15]⟩] := by
      norm_num [Tensor.rows, numel, map_simulate, per_row_sum_simulator]
    have h4 := (h.2.2 ⟨[4, 2], .float32, "cpu", [1, 2, 3, 4, 5, 6, 7, 8]⟩
      ⟨[], .float32, "cpu", [3]⟩
      [⟨[], .float32, "cpu", [7]⟩, ⟨[], .float32, "cpu", [11]⟩,
        ⟨[], .float32, "cpu", [15]⟩]
      (by decide) hmap (by decide)).1
    simpa using h4
  · exact h.2.1 ⟨[2], .float32, "cpu", [1, 2]⟩ (by decide)

/-- C10: the simulator returned by `process_simulator` does not depend on the
`is_numpy_simulator` argument: for every user simulator, prior and input, the
values produced with the flag set and with the flag cleared coincide. -/
theorem c10_is_numpy_flag_irrelevant (cast : Rat → Rat)
    (user_simulator : Tensor → Except SimError Tensor)
    (prior : Nat → Tensor) (b1 b2 : Bool) (theta : Tensor) :
    process_simulator cast user_simulator prior b1 theta =
      process_simulator cast user_simulator prior b2 theta := rfl

end SbiChecks
